import Mathlib

/-!
Verification development for the deadline-guard repository.

The definitions below are shallow embeddings of the repository's logic:

* `src/src/lib/deadline-utils.ts` — urgency classifier (`getDeadlineStatus`),
  calendar-day primitive (`getDaysUntilDue`), recurrence scheduler
  (`getNextDueDate`), together with models of the date-fns helpers they call
  (`parseISO`, `startOfDay`, `differenceInDays`, `addDays`, `addMonths`,
  `addYears`).
* `src/supabase/functions/send-deadline-reminders/index.ts` — dispatcher day
  count (`getDaysUntilDeadline`), reminder evaluator (`shouldSendReminder`),
  and the per-deadline dispatch loop.
* `src/supabase/functions/stripe-webhook/index.ts` — price→tier table, the
  checkout upsert, and the request-level control flow.
* `src/supabase/migrations/20260119_production_ready.sql` — the
  `deadlines_with_urgency` view's urgency CASE, the
  `create_next_recurring_deadline` trigger's interval computation, and the
  `check_deadline_rate_limit` trigger guard.

Modelling conventions: instants are integer minutes since an epoch (the
TypeScript sources compute in milliseconds; every comparison they make is a
comparison of exact multiples, so minute granularity preserves all the
decisions being verified); calendar dates are `(year, month, day)` triples;
a runtime's timezone is an integer offset `tz` in minutes with
`local = utc + tz`.  Lean's `Int` division `/` is Euclidean division, which
for the positive literal divisors used here coincides with floor division.
-/

namespace DeadlineGuard

/-! ### Calendar dates

A calendar date as a plain `(year, month, day)` triple, the timezone-naive
"calendar date" of the data model. -/

structure CalDate where
  year : Int
  month : Int
  day : Int
  deriving DecidableEq, Repr

/-- Gregorian leap-year rule. -/
def isLeapYear (y : Int) : Bool :=
  (y % 4 == 0 && y % 100 != 0) || y % 400 == 0

/-- Number of days in month `m` of year `y` (for `1 ≤ m ≤ 12`). -/
def daysInMonth (y m : Int) : Int :=
  if m = 2 then (if isLeapYear y then 29 else 28)
  else if m = 4 ∨ m = 6 ∨ m = 9 ∨ m = 11 then 30
  else 31

/-- A structurally valid calendar date. -/
def ValidDate (d : CalDate) : Prop :=
  1 ≤ d.month ∧ d.month ≤ 12 ∧ 1 ≤ d.day ∧ d.day ≤ daysInMonth d.year d.month

instance (d : CalDate) : Decidable (ValidDate d) := by
  unfold ValidDate; infer_instance

/-- Model of date-fns `addMonths` (used by `getNextDueDate` in
`src/src/lib/deadline-utils.ts`): shift the month index and clamp the
day-of-month to the length of the target month. -/
def addMonths (d : CalDate) (n : Int) : CalDate :=
  let t : Int := d.year * 12 + (d.month - 1) + n
  let y : Int := t / 12
  let m : Int := t % 12 + 1
  { year := y, month := m, day := min d.day (daysInMonth y m) }

/-- Model of date-fns `addYears`: a year is twelve months. -/
def addYears (d : CalDate) (n : Int) : CalDate :=
  addMonths d (12 * n)

/-- Serial day number of a calendar date (days since 1970-01-01, civil
calendar), the standard days-from-civil computation. -/
def toDayNumber (d : CalDate) : Int :=
  let y : Int := d.year - (if d.month ≤ 2 then 1 else 0)
  let era : Int := y / 400
  let yoe : Int := y - era * 400
  let mp : Int := (d.month + 9) % 12
  let doy : Int := (153 * mp + 2) / 5 + d.day - 1
  let doe : Int := yoe * 365 + yoe / 4 - yoe / 100 + doy
  era * 146097 + doe - 719468

/-- Calendar date of a serial day number (civil-from-days). -/
def fromDayNumber (z : Int) : CalDate :=
  let z' : Int := z + 719468
  let era : Int := z' / 146097
  let doe : Int := z' - era * 146097
  let yoe : Int := (doe - doe / 1460 + doe / 36524 - doe / 146096) / 365
  let y : Int := yoe + era * 400
  let doy : Int := doe - (365 * yoe + yoe / 4 - yoe / 100)
  let mp : Int := (5 * doy + 2) / 153
  let dd : Int := doy - (153 * mp + 2) / 5 + 1
  let mm : Int := mp + (if mp < 10 then 3 else -9)
  { year := y + (if mm ≤ 2 then 1 else 0), month := mm, day := dd }

/-- Model of date-fns `addDays`: plain day-serial addition. -/
def addDays (d : CalDate) (n : Int) : CalDate :=
  fromDayNumber (toDayNumber d + n)

/-! ### Urgency classifier (`src/src/lib/deadline-utils.ts`) -/

inductive ConsequenceLevel where
  | low | medium | high | critical
  deriving DecidableEq, Repr

inductive DeadlineStatus where
  | safe | upcoming | warning | urgent | critical | overdue
  deriving DecidableEq, Repr

/-- The `URGENCY_THRESHOLDS` constant of `deadline-utils.ts`. -/
structure UrgencyThresholds where
  overdue : Int
  critical : Int
  urgent : Int
  warning : Int
  upcoming : Int

def URGENCY_THRESHOLDS : UrgencyThresholds :=
  { overdue := 0, critical := 3, urgent := 7, warning := 14, upcoming := 30 }

/-- The threshold cascade of `getDeadlineStatus` (lines 62–67 of
`deadline-utils.ts`), as a function of the computed `daysUntilDue`. -/
def classifyDays (daysUntilDue : Int) : DeadlineStatus :=
  if daysUntilDue < 0 then .overdue
  else if daysUntilDue ≤ URGENCY_THRESHOLDS.critical then .critical
  else if daysUntilDue ≤ URGENCY_THRESHOLDS.urgent then .urgent
  else if daysUntilDue ≤ URGENCY_THRESHOLDS.warning then .warning
  else if daysUntilDue ≤ URGENCY_THRESHOLDS.upcoming then .upcoming
  else .safe

/-- The urgency CASE expression of the `deadlines_with_urgency` view
(`20260119_production_ready.sql`), as a function of
`due_date - CURRENT_DATE`.  Note its final branch yields the string
`"ok"`. -/
def sqlUrgencyStatus (d : Int) : String :=
  if d < 0 then "overdue"
  else if d ≤ 3 then "critical"
  else if d ≤ 7 then "urgent"
  else if d ≤ 14 then "warning"
  else if d ≤ 30 then "upcoming"
  else "ok"

/-- Canonical string names of the TypeScript status values. -/
def statusName : DeadlineStatus → String
  | .safe => "safe"
  | .upcoming => "upcoming"
  | .warning => "warning"
  | .urgent => "urgent"
  | .critical => "critical"
  | .overdue => "overdue"

/-- The label the SQL view uses for each band: it agrees with the
TypeScript classifier on every tier except the last, which it spells
`"ok"` instead of `"safe"`. -/
def sqlLabelOf : DeadlineStatus → String
  | .safe => "ok"
  | s => statusName s

/-! ### Day-count primitives

Instants are minutes since the epoch, `tz` is the runtime's offset from UTC
in minutes (`local = utc + tz`). -/

/-- JavaScript `new Date("YYYY-MM-DD")` on a date-only string: UTC midnight
of that day (ECMA-262 date-time string format). -/
def jsParseDateOnly (dueDay : Int) : Int := dueDay * 1440

/-- date-fns `parseISO` on a date-only string: local midnight of that day,
expressed as a UTC instant. -/
def parseISODateOnly (dueDay tz : Int) : Int := dueDay * 1440 - tz

/-- date-fns `startOfDay`: local midnight of the local calendar day
containing `t`, expressed as a UTC instant. -/
def startOfDay (t tz : Int) : Int := ((t + tz) / 1440) * 1440 - tz

/-- date-fns `differenceInDays` restricted to the way the repository calls
it: both arguments are `startOfDay` results (local midnights), so their
difference is an exact multiple of a day and full-day truncation is exact
division. -/
def differenceInDaysMidnight (a b : Int) : Int := (a - b) / 1440

/-- `getDaysUntilDue` (`deadline-utils.ts` lines 53–57): local calendar-day
difference between the due date and today. -/
def getDaysUntilDue (dueDay now tz : Int) : Int :=
  differenceInDaysMidnight (startOfDay (parseISODateOnly dueDay tz) tz)
    (startOfDay now tz)

/-- JavaScript `Math.ceil (a / b)` for integer `a` and positive integer
`b`. -/
def jsMathCeilDiv (a b : Int) : Int := -((-a) / b)

/-- `getDaysUntilDeadline` (`send-deadline-reminders/index.ts` lines 32–37):
`Math.ceil` of the elapsed-time difference between the UTC-parsed due date
and the current instant. -/
def getDaysUntilDeadline (dueDay now : Int) : Int :=
  jsMathCeilDiv (jsParseDateOnly dueDay - now) 1440

set_option linter.unusedVariables false in
/-- `getDeadlineStatus` (`deadline-utils.ts` lines 59–68).  The optional
`consequenceLevel` parameter is declared by the source but never read by
its body. -/
def getDeadlineStatus (dueDay now tz : Int)
    (consequenceLevel : Option ConsequenceLevel) : DeadlineStatus :=
  classifyDays (getDaysUntilDue dueDay now tz)

/-! ### Reminder window evaluator (`send-deadline-reminders/index.ts`) -/

/-- The fixed `REMINDER_WINDOWS` list of the dispatcher (line 30). -/
def REMINDER_WINDOWS : List Int := [30, 14, 7, 3, 1]

/-- `shouldSendReminder` (lines 39–54).  `lastReminderSent` is the optional
timestamp (minutes); the 24-hour comparison `hoursSinceLastReminder >= 24`
is the exact-rational comparison `now - lastSent ≥ 1440` minutes. -/
def shouldSendReminder (daysUntil : Int) (lastReminderSent : Option Int)
    (now : Int) : Bool :=
  let isAtWindow :=
    REMINDER_WINDOWS.any fun w => decide (daysUntil ≤ w) && decide (daysUntil > w - 1)
  if !isAtWindow then false
  else
    match lastReminderSent with
    | Option.none => true
    | some lastSent => decide (now - lastSent ≥ 1440)

/-! ### Reminder dispatcher loop (`send-deadline-reminders/index.ts`,
lines 189–232)

One loop iteration touches: the deadline row, the result of the profile
lookup for its owner, and the outcome of the email send.  The latter two
are external effects; the embedding passes their outcomes in alongside the
row. -/

structure DispatchDeadline where
  id : String
  dueDay : Int
  lastReminderSent : Option Int
  userId : String
  deriving DecidableEq, Repr

structure Profile where
  email : String
  name : String
  deriving DecidableEq, Repr

/-- One deadline together with the outcomes of the external calls the loop
body makes for it: the owner-profile lookup and the email-API send. -/
structure DispatchEntry where
  deadline : DispatchDeadline
  profile : Option Profile
  emailAccepted : Bool
  deriving DecidableEq, Repr

/-- One iteration of the dispatcher's `for` loop: returns the (possibly
updated) deadline row and the increments to the `remindersSent` /
`remindersSkipped` counters.  Faithful to the branch structure: a deadline
outside its window is counted skipped; a missing profile or a failed send
falls through (`continue`) with the row untouched; only a confirmed send
(`sent === true`) writes `last_reminder_sent = now`. -/
def processOne (now : Int) (e : DispatchEntry) :
    DispatchDeadline × Nat × Nat :=
  let daysUntil := getDaysUntilDeadline e.deadline.dueDay now
  if !shouldSendReminder daysUntil e.deadline.lastReminderSent now then
    (e.deadline, 0, 1)
  else
    match e.profile with
    | Option.none => (e.deadline, 0, 0)
    | some _ =>
      if e.emailAccepted then
        ({ e.deadline with lastReminderSent := some now }, 1, 0)
      else
        (e.deadline, 0, 0)

/-- The dispatcher's whole loop: processes entries in order, accumulating
the resulting rows and the two counters. -/
def runDispatcher (now : Int) : List DispatchEntry → List DispatchDeadline × Nat × Nat
  | [] => ([], 0, 0)
  | e :: rest =>
    let (d, s, k) := processOne now e
    let (ds, ss, ks) := runDispatcher now rest
    (d :: ds, s + ss, k + ks)

/-! ### Recurrence scheduler -/

inductive RecurrencePattern where
  | none | monthly | quarterly | semi_annual | annual | biennial | custom
  deriving DecidableEq, Repr

/-- `getNextDueDate` (`deadline-utils.ts` lines 176–195).  The `custom`
branch is JavaScript `customDays || 365`: an absent *or zero* (falsy)
interval falls back to 365. -/
def getNextDueDate (current : CalDate) (recurrence : RecurrencePattern)
    (customDays : Option Int) : CalDate :=
  match recurrence with
  | .monthly => addMonths current 1
  | .quarterly => addMonths current 3
  | .semi_annual => addMonths current 6
  | .annual => addYears current 1
  | .biennial => addYears current 2
  | .custom =>
    addDays current
      (match customDays with
       | Option.none => 365
       | some k => if k = 0 then 365 else k)
  | .none => current

/-- The `interval_days` CASE of the `create_next_recurring_deadline`
trigger (`20260119_production_ready.sql` lines 404–477): a fixed day count
per pattern, `COALESCE(recurrence_interval_days, 365)` for `custom`, and
no value (no reschedule) for `none`. -/
def sqlIntervalDays (recurrence : RecurrencePattern)
    (intervalDays : Option Int) : Option Int :=
  match recurrence with
  | .monthly => some 30
  | .quarterly => some 90
  | .semi_annual => some 180
  | .annual => some 365
  | .biennial => some 730
  | .custom => some (intervalDays.getD 365)
  | .none => Option.none

/-- The trigger's `next_due_date := NEW.due_date + interval_days`: plain
day addition on the SQL `DATE` type. -/
def sqlNextDueDate (due : CalDate) (recurrence : RecurrencePattern)
    (intervalDays : Option Int) : Option CalDate :=
  (sqlIntervalDays recurrence intervalDays).map (addDays due)

/-! ### Billing webhook (`stripe-webhook/index.ts`) -/

/-- The environment variables feeding `PRICE_TO_TIER`. -/
structure PriceEnv where
  proMonthly : Option String
  proYearly : Option String
  teamMonthly : Option String
  teamYearly : Option String

/-- The `PRICE_TO_TIER` object literal (lines 12–17), as its ordered list
of key/value bindings; each key is `Deno.env.get(...) || ""`.  In a
JavaScript object literal a later duplicate key overwrites an earlier
one. -/
def priceToTierBindings (env : PriceEnv) : List (String × String) :=
  [ (env.proMonthly.getD "", "pro")
  , (env.proYearly.getD "", "pro")
  , (env.teamMonthly.getD "", "team")
  , (env.teamYearly.getD "", "team") ]

/-- Property lookup on the object: the last binding for a key wins. -/
def priceToTierLookup (env : PriceEnv) (priceId : String) : Option String :=
  ((priceToTierBindings env).reverse.find? fun b => b.1 = priceId).map Prod.snd

/-- `PRICE_TO_TIER[priceId] || "pro"` (lines 54 and 99): a missing key
(JavaScript `undefined`) and the falsy empty string both yield `"pro"`. -/
def tierForPrice (env : PriceEnv) (priceId : String) : String :=
  match priceToTierLookup env priceId with
  | Option.none => "pro"
  | some t => if t = "" then "pro" else t

/-- The fields of a `checkout.session.completed` event that the handler
reads (after the `stripe.subscriptions.retrieve` call). -/
structure CheckoutEvent where
  userId : Option String
  subscriptionId : String
  priceId : String
  subStatus : String
  trialEnd : Option Int
  periodStart : Int
  periodEnd : Int
  deriving DecidableEq, Repr

/-- A row of the `subscriptions` table, restricted to the columns the
checkout upsert writes. -/
structure SubRow where
  userId : String
  stripeSubscriptionId : String
  stripePriceId : String
  planTier : String
  status : String
  trialEndsAt : Option Int
  currentPeriodStart : Int
  currentPeriodEnd : Int
  deriving DecidableEq, Repr

/-- The columns of the `subscriptions` table carrying a unique constraint,
per the schema (`20260119_production_ready.sql` lines 262–282): the `id`
PRIMARY KEY and the `stripe_subscription_id TEXT UNIQUE` column.
`user_id` is covered only by the NON-unique index
`idx_subscriptions_user`. -/
def subscriptionsUniqueCols : List String := ["id", "stripe_subscription_id"]

/-- Postgres semantics of the statement that
`supabase.from("subscriptions").upsert(row, { onConflict: target })`
issues, namely `INSERT … ON CONFLICT (target) DO UPDATE`: the database
rejects the whole statement — SQLSTATE 42P10, nothing written — unless
`target` carries a unique constraint.  Against the UNIQUE
`stripe_subscription_id` it updates the row holding the same subscription
id, or inserts when none does (the freshly generated `id` key cannot
collide, so no other constraint blocks that insert).  `Option.none` is
the rejected statement.  The remaining unique column, the generated `id`,
is not a column of the modelled row and is never named as a conflict
target by the handler, so it has no update branch here. -/
def pgUpsertSubscription (target : String) (table : List SubRow)
    (row : SubRow) : Option (List SubRow) :=
  if target ∉ subscriptionsUniqueCols then Option.none
  else if target = "stripe_subscription_id" then
    if table.any fun r => r.stripeSubscriptionId = row.stripeSubscriptionId then
      some (table.map fun r =>
        if r.stripeSubscriptionId = row.stripeSubscriptionId then row else r)
    else some (table ++ [row])
  else Option.none

/-- The row the `checkout.session.completed` case builds (lines 57–71). -/
def checkoutRow (env : PriceEnv) (uid : String) (ev : CheckoutEvent) : SubRow :=
  { userId := uid
  , stripeSubscriptionId := ev.subscriptionId
  , stripePriceId := ev.priceId
  , planTier := tierForPrice env ev.priceId
  , status := if ev.subStatus = "trialing" then "trialing" else "active"
  , trialEndsAt := ev.trialEnd
  , currentPeriodStart := ev.periodStart
  , currentPeriodEnd := ev.periodEnd }

/-- The `checkout.session.completed` case (lines 39–78): no user id in the
session metadata breaks out without touching the table; otherwise the
handler calls `upsert` with `onConflict: "user_id"` (line 73) and never
inspects the client's `{ error }` result, so a rejected statement leaves
the table unchanged while the handler proceeds to log success and return
200. -/
def handleCheckoutCompleted (env : PriceEnv) (table : List SubRow)
    (ev : CheckoutEvent) : List SubRow :=
  match ev.userId with
  | Option.none => table
  | some uid =>
    match pgUpsertSubscription "user_id" table (checkoutRow env uid ev) with
    | Option.none => table
    | some table' => table'

/-- A database operation, for tracking what the webhook handler touches. -/
inductive DbOp where
  | read (table : String)
  | write (table : String)
  deriving DecidableEq, Repr

/-- The inbound webhook events, with the fields each case reads.
`subscriptionUpdated` carries the outcome of the profile lookup its
no-metadata branch performs. -/
inductive StripeEvent where
  | checkoutCompleted (ev : CheckoutEvent)
  | subscriptionUpdated (userId : Option String) (profileFound : Bool)
      (subscriptionId : String) (priceId : String)
  | subscriptionDeleted (subscriptionId : String)
  | invoicePaymentFailed (subscriptionId : Option String)
  | invoicePaymentSucceeded (subscriptionId : Option String)
      (billingReason : String)
  | unhandled
  deriving DecidableEq, Repr

/-- The database operations the event-dispatch `switch` performs for each
event type (lines 38–177). -/
def dbOpsFor (ev : StripeEvent) : List DbOp :=
  match ev with
  | .checkoutCompleted c =>
    match c.userId with
    | Option.none => []
    | some _ => [.write "subscriptions"]
  | .subscriptionUpdated userId profileFound _ _ =>
    match userId with
    | Option.none =>
      if profileFound then [.read "profiles", .write "subscriptions"]
      else [.read "profiles"]
    | some _ => [.write "subscriptions"]
  | .subscriptionDeleted _ => [.write "subscriptions"]
  | .invoicePaymentFailed sub =>
    match sub with
    | Option.none => []
    | some _ => [.write "subscriptions"]
  | .invoicePaymentSucceeded sub reason =>
    match sub with
    | Option.none => []
    | some _ => if reason = "subscription_cycle" then [.write "subscriptions"] else []
  | .unhandled => []

/-- An inbound webhook request: whether the `stripe-signature` header is
present, whether `stripe.webhooks.constructEvent` accepts the body (it
throws otherwise), and the decoded event. -/
structure WebhookRequest where
  hasSignature : Bool
  signatureValid : Bool
  event : StripeEvent
  deriving DecidableEq, Repr

/-- Request-level control flow of the webhook `serve` handler (lines
19–190): a missing signature header returns 400 immediately; a signature
that fails verification throws inside the `try`, reaching the `catch`
(lines 183–189) which returns 400 — in both cases before the database
client is even constructed.  Only a verified event reaches the dispatch
`switch`.  Returns the HTTP status and the database operations
performed. -/
def stripeWebhookServe (req : WebhookRequest) : Nat × List DbOp :=
  if !req.hasSignature then (400, [])
  else if !req.signatureValid then (400, [])
  else (200, dbOpsFor req.event)

/-! ### Deadline creation rate limit
(`check_deadline_rate_limit`, a `BEFORE INSERT` trigger) -/

/-- `SELECT COUNT(*) FROM deadlines WHERE user_id = NEW.user_id AND
created_at > NOW() - INTERVAL '1 day'`: rows are `(user_id, created_at)`
pairs, times in minutes. -/
def countRecentDeadlines (rows : List (String × Int)) (uid : String)
    (now : Int) : Nat :=
  (rows.filter fun r => r.1 = uid && decide (r.2 > now - 1440)).length

/-- The trigger guard: `true` means the guard raises (insert rejected).
Faithful to the source comparison `... > 100`. -/
def checkDeadlineRateLimit (rows : List (String × Int)) (uid : String)
    (now : Int) : Bool :=
  decide (countRecentDeadlines rows uid now > 100)

/-- One `INSERT` into `deadlines` as seen through the trigger:
`Option.none` is the raised rate-limit exception. -/
def insertDeadlineRow (rows : List (String × Int)) (uid : String)
    (now : Int) : Option (List (String × Int)) :=
  if checkDeadlineRateLimit rows uid now then Option.none
  else some (rows ++ [(uid, now)])

/-- `n` consecutive insert attempts by the same user at the same instant;
fails as soon as one is rejected. -/
def insertDeadlineN (uid : String) (now : Int) :
    Nat → List (String × Int) → Option (List (String × Int))
  | 0, rows => some rows
  | n + 1, rows =>
    match insertDeadlineRow rows uid now with
    | Option.none => Option.none
    | some rows' => insertDeadlineN uid now n rows'

/-! ### Helper lemmas -/

lemma daysInMonth_ge_28 (y m : Int) : 28 ≤ daysInMonth y m := by
  unfold daysInMonth
  split_ifs <;> omega

lemma validDate_clamp (y m d : Int) (h1 : 1 ≤ m) (h2 : m ≤ 12) (hd : 1 ≤ d) :
    ValidDate ⟨y, m, min d (daysInMonth y m)⟩ := by
  have h := daysInMonth_ge_28 y m
  refine ⟨h1, h2, ?_, ?_⟩
  · show (1 : Int) ≤ min d (daysInMonth y m)
    omega
  · show min d (daysInMonth y m) ≤ daysInMonth y m
    omega

lemma addMonths_reduce (D : CalDate) (n : Int) :
    addMonths D n =
      ⟨(D.year * 12 + (D.month - 1) + n) / 12,
       (D.year * 12 + (D.month - 1) + n) % 12 + 1,
       min D.day (daysInMonth ((D.year * 12 + (D.month - 1) + n) / 12)
         ((D.year * 12 + (D.month - 1) + n) % 12 + 1))⟩ := rfl

lemma addMonths_char (D : CalDate) (n y' m' : Int)
    (hq : (D.year * 12 + (D.month - 1) + n) / 12 = y')
    (hr : (D.year * 12 + (D.month - 1) + n) % 12 + 1 = m') :
    addMonths D n = ⟨y', m', min D.day (daysInMonth y' m')⟩ := by
  rw [addMonths_reduce, hq, hr]

/-! ### Claim theorems -/

/-- C1 counterexample: at day-difference 31 the `deadlines_with_urgency`
view (cited by the claim alongside the classifier) does not produce the
tier `safe`; it produces the string `"ok"`. -/
theorem C1_counterexample :
    sqlUrgencyStatus 31 ≠ "safe" ∧ sqlUrgencyStatus 31 = "ok" := by
  constructor <;> decide

/-- C1 (amended): urgency classification is total and matches the fixed
threshold bands.  For every integer day-difference `d` the TypeScript
classifier returns exactly one of the six tiers with `d < 0 → overdue`,
`0 ≤ d ≤ 3 → critical`, `4 ≤ d ≤ 7 → urgent`, `8 ≤ d ≤ 14 → warning`,
`15 ≤ d ≤ 30 → upcoming`, `d ≥ 31 → safe`; the SQL view computes the same
bands but labels the final band `"ok"` rather than `"safe"`. -/
theorem C1_urgency_bands (d : Int) :
    (classifyDays d = .overdue ↔ d < 0) ∧
    (classifyDays d = .critical ↔ 0 ≤ d ∧ d ≤ 3) ∧
    (classifyDays d = .urgent ↔ 4 ≤ d ∧ d ≤ 7) ∧
    (classifyDays d = .warning ↔ 8 ≤ d ∧ d ≤ 14) ∧
    (classifyDays d = .upcoming ↔ 15 ≤ d ∧ d ≤ 30) ∧
    (classifyDays d = .safe ↔ 31 ≤ d) ∧
    sqlUrgencyStatus d = sqlLabelOf (classifyDays d) := by
  unfold classifyDays sqlUrgencyStatus URGENCY_THRESHOLDS
  split_ifs <;> simp_all [sqlLabelOf, statusName] <;> omega

/-- C2: the reminder evaluator's full contract — `shouldSendReminder`
returns true iff `daysUntil` is exactly one of {30, 14, 7, 3, 1} and the
last reminder is unset or at least 24 hours (1440 minutes) old. -/
theorem C2_should_remind_iff (d : Int) (last : Option Int) (now : Int) :
    shouldSendReminder d last now = true ↔
      ((d = 30 ∨ d = 14 ∨ d = 7 ∨ d = 3 ∨ d = 1) ∧
       (last = Option.none ∨ ∃ t, last = some t ∧ now - t ≥ 1440)) := by
  cases last <;>
    simp [shouldSendReminder, REMINDER_WINDOWS] <;>
    omega

/-- C5 counterexample: with a UTC−5 runtime (offset −300 minutes), due
date = day 1 and evaluation instant 1500 minutes (01:00 UTC on day 1,
which is 20:00 local on day 0), the dispatcher's elapsed-time computation
returns 0 while the calendar-day primitive returns 1. -/
theorem C5_counterexample :
    getDaysUntilDeadline 1 1500 = 0 ∧
    getDaysUntilDue 1 1500 (-300) = 1 ∧
    getDaysUntilDeadline 1 1500 ≠ getDaysUntilDue 1 1500 (-300) := by
  refine ⟨by decide, by decide, by decide⟩

/-- C5 (amended): in a runtime whose local timezone offset is zero (UTC),
the dispatcher's `getDaysUntilDeadline` agrees with the local
calendar-day primitive `getDaysUntilDue` for every due date and every
evaluation instant; under a nonzero offset the two can differ, because
the dispatcher parses the date-only string as UTC midnight and applies an
elapsed-time ceiling. -/
theorem C5_utc_agreement (dueDay now : Int) :
    getDaysUntilDeadline dueDay now = getDaysUntilDue dueDay now 0 := by
  unfold getDaysUntilDeadline getDaysUntilDue jsMathCeilDiv jsParseDateOnly
    parseISODateOnly startOfDay differenceInDaysMidnight
  omega

/-- C8: the rate-limit trigger compares the pre-insert window count with
`> 100`, so from an empty history 101 consecutive inserts by one user all
succeed (the 102nd is the first rejected), and a user already holding 100
deadlines created within the window is not rejected — contradicting the
100-per-24h cap stated by the claim and by the trigger's own error
message. -/
theorem C8_rate_limit_off_by_one :
    (insertDeadlineN "u" 0 101 []).map List.length = some 101 ∧
    insertDeadlineN "u" 0 102 [] = Option.none ∧
    checkDeadlineRateLimit (List.replicate 100 ("u", 0)) "u" 0 = false := by
  refine ⟨by decide, by decide, by decide⟩

/-- C3 counterexample: for due date 2025-01-31 under the `monthly`
pattern, the TypeScript scheduler lands on 2025-02-28 (calendar month with
clamping) while the database trigger's fixed `+30 days` lands on
2025-03-02, so the claimed mapping does not hold for both. -/
theorem C3_counterexample :
    getNextDueDate ⟨2025, 1, 31⟩ .monthly Option.none = ⟨2025, 2, 28⟩ ∧
    sqlNextDueDate ⟨2025, 1, 31⟩ .monthly Option.none = some ⟨2025, 3, 2⟩ ∧
    (⟨2025, 2, 28⟩ : CalDate) ≠ ⟨2025, 3, 2⟩ := by
  refine ⟨by decide, by decide, by decide⟩

/-- C3 (amended): the TypeScript scheduler maps each pattern to the
spec's calendar offset — `monthly`/`quarterly`/`semi_annual` shift the
month index by 1/3/6 (carrying into the next year when needed),
`annual`/`biennial` add 1/2 to the year, each clamping the day-of-month to
the length of the target month (so the result is always a valid date);
`custom` adds `custom_interval_days` days (365 when unset or zero, since
the source treats a zero interval as falsy); `none` is the identity.  The
database trigger instead adds a fixed day count — 30/90/180/365/730 days
respectively, `COALESCE(interval, 365)` days for `custom` — and does not
reschedule for `none`. -/
theorem C3_next_due_date (D : CalDate) (hD : ValidDate D) :
    (∀ cd, getNextDueDate D .none cd = D) ∧
    (∀ cd, getNextDueDate D .monthly cd =
      if D.month ≤ 11 then
        ⟨D.year, D.month + 1, min D.day (daysInMonth D.year (D.month + 1))⟩
      else ⟨D.year + 1, 1, min D.day (daysInMonth (D.year + 1) 1)⟩) ∧
    (∀ cd, getNextDueDate D .quarterly cd =
      if D.month ≤ 9 then
        ⟨D.year, D.month + 3, min D.day (daysInMonth D.year (D.month + 3))⟩
      else ⟨D.year + 1, D.month - 9, min D.day (daysInMonth (D.year + 1) (D.month - 9))⟩) ∧
    (∀ cd, getNextDueDate D .semi_annual cd =
      if D.month ≤ 6 then
        ⟨D.year, D.month + 6, min D.day (daysInMonth D.year (D.month + 6))⟩
      else ⟨D.year + 1, D.month - 6, min D.day (daysInMonth (D.year + 1) (D.month - 6))⟩) ∧
    (∀ cd, getNextDueDate D .annual cd =
      ⟨D.year + 1, D.month, min D.day (daysInMonth (D.year + 1) D.month)⟩) ∧
    (∀ cd, getNextDueDate D .biennial cd =
      ⟨D.year + 2, D.month, min D.day (daysInMonth (D.year + 2) D.month)⟩) ∧
    (getNextDueDate D .custom Option.none = addDays D 365 ∧
     getNextDueDate D .custom (some 0) = addDays D 365 ∧
     ∀ k : Int, k ≠ 0 → getNextDueDate D .custom (some k) = addDays D k) ∧
    (∀ p cd, p ≠ RecurrencePattern.custom → ValidDate (getNextDueDate D p cd)) ∧
    (∀ cd, sqlNextDueDate D .monthly cd = some (addDays D 30) ∧
           sqlNextDueDate D .quarterly cd = some (addDays D 90) ∧
           sqlNextDueDate D .semi_annual cd = some (addDays D 180) ∧
           sqlNextDueDate D .annual cd = some (addDays D 365) ∧
           sqlNextDueDate D .biennial cd = some (addDays D 730) ∧
           sqlNextDueDate D .none cd = Option.none) ∧
    (sqlNextDueDate D .custom Option.none = some (addDays D 365) ∧
     ∀ k : Int, sqlNextDueDate D .custom (some k) = some (addDays D k)) := by
  obtain ⟨hm1, hm2, hd1, hd2⟩ := hD
  have hmon : addMonths D 1 =
      if D.month ≤ 11 then
        (⟨D.year, D.month + 1, min D.day (daysInMonth D.year (D.month + 1))⟩ : CalDate)
      else ⟨D.year + 1, 1, min D.day (daysInMonth (D.year + 1) 1)⟩ := by
    by_cases hm : D.month ≤ 11
    · rw [if_pos hm, addMonths_char D 1 D.year (D.month + 1) (by omega) (by omega)]
    · rw [if_neg hm, addMonths_char D 1 (D.year + 1) 1 (by omega) (by omega)]
  have hqua : addMonths D 3 =
      if D.month ≤ 9 then
        (⟨D.year, D.month + 3, min D.day (daysInMonth D.year (D.month + 3))⟩ : CalDate)
      else ⟨D.year + 1, D.month - 9, min D.day (daysInMonth (D.year + 1) (D.month - 9))⟩ := by
    by_cases hm : D.month ≤ 9
    · rw [if_pos hm, addMonths_char D 3 D.year (D.month + 3) (by omega) (by omega)]
    · rw [if_neg hm, addMonths_char D 3 (D.year + 1) (D.month - 9) (by omega) (by omega)]
  have hsem : addMonths D 6 =
      if D.month ≤ 6 then
        (⟨D.year, D.month + 6, min D.day (daysInMonth D.year (D.month + 6))⟩ : CalDate)
      else ⟨D.year + 1, D.month - 6, min D.day (daysInMonth (D.year + 1) (D.month - 6))⟩ := by
    by_cases hm : D.month ≤ 6
    · rw [if_pos hm, addMonths_char D 6 D.year (D.month + 6) (by omega) (by omega)]
    · rw [if_neg hm, addMonths_char D 6 (D.year + 1) (D.month - 6) (by omega) (by omega)]
  have hann : addYears D 1 =
      (⟨D.year + 1, D.month, min D.day (daysInMonth (D.year + 1) D.month)⟩ : CalDate) := by
    show addMonths D (12 * 1) = _
    rw [addMonths_char D (12 * 1) (D.year + 1) D.month (by omega) (by omega)]
  have hbie : addYears D 2 =
      (⟨D.year + 2, D.month, min D.day (daysInMonth (D.year + 2) D.month)⟩ : CalDate) := by
    show addMonths D (12 * 2) = _
    rw [addMonths_char D (12 * 2) (D.year + 2) D.month (by omega) (by omega)]
  refine ⟨fun _ => rfl, fun _ => hmon, fun _ => hqua, fun _ => hsem,
    fun _ => hann, fun _ => hbie,
    ⟨rfl, rfl, fun k hk => ?_⟩, ?_,
    fun _ => ⟨rfl, rfl, rfl, rfl, rfl, rfl⟩, ⟨rfl, fun _ => rfl⟩⟩
  · show addDays D (if k = 0 then 365 else k) = addDays D k
    rw [if_neg hk]
  · intro p cd hp
    cases p with
    | none => exact ⟨hm1, hm2, hd1, hd2⟩
    | monthly =>
      show ValidDate (addMonths D 1)
      rw [hmon]
      split_ifs <;> exact validDate_clamp _ _ _ (by omega) (by omega) hd1
    | quarterly =>
      show ValidDate (addMonths D 3)
      rw [hqua]
      split_ifs <;> exact validDate_clamp _ _ _ (by omega) (by omega) hd1
    | semi_annual =>
      show ValidDate (addMonths D 6)
      rw [hsem]
      split_ifs <;> exact validDate_clamp _ _ _ (by omega) (by omega) hd1
    | annual =>
      show ValidDate (addYears D 1)
      rw [hann]
      exact validDate_clamp _ _ _ (by omega) (by omega) hd1
    | biennial =>
      show ValidDate (addYears D 2)
      rw [hbie]
      exact validDate_clamp _ _ _ (by omega) (by omega) hd1
    | custom => exact absurd rfl hp

/-- C3 witness: 2024-01-31 is a valid date, and the amended theorem's
monthly mapping lands it on 2024-02-29 (leap-year clamp). -/
theorem C3_next_due_date_witness :
    ValidDate (⟨2024, 1, 31⟩ : CalDate) ∧
    getNextDueDate ⟨2024, 1, 31⟩ .monthly Option.none = ⟨2024, 2, 29⟩ := by
  refine ⟨by decide, ?_⟩
  have h := (C3_next_due_date ⟨2024, 1, 31⟩ (by decide)).2.1 Option.none
  rw [h]
  decide

/-- C4: the checkout upsert names `user_id` as its `ON CONFLICT` target,
but `user_id` carries no unique constraint in the `subscriptions` schema
(only the non-unique index `idx_subscriptions_user`), so the database
rejects the statement outright and the handler — which never inspects the
client's error — writes nothing: processing a checkout event, once or
replayed, leaves the subscriptions table unchanged, so two deliveries end
with ZERO rows for the event's subscription id rather than the claimed
exactly one.  The same upsert keyed by the schema's UNIQUE
`stripe_subscription_id` column — the spec's stated mechanism — would
give replays exactly one row. -/
theorem C4_checkout_upsert_never_writes :
    ("user_id" ∉ subscriptionsUniqueCols) ∧
    (∀ (env : PriceEnv) (table : List SubRow) (ev : CheckoutEvent),
      handleCheckoutCompleted env table ev = table) ∧
    (handleCheckoutCompleted ⟨Option.none, Option.none, Option.none, Option.none⟩
        (handleCheckoutCompleted ⟨Option.none, Option.none, Option.none, Option.none⟩ []
          ⟨some "u1", "s1", "p", "active", Option.none, 0, 0⟩)
        ⟨some "u1", "s1", "p", "active", Option.none, 0, 0⟩ = ([] : List SubRow)) ∧
    (pgUpsertSubscription "stripe_subscription_id" []
        (checkoutRow ⟨Option.none, Option.none, Option.none, Option.none⟩ "u1"
          ⟨some "u1", "s1", "p", "active", Option.none, 0, 0⟩)
      = some [checkoutRow ⟨Option.none, Option.none, Option.none, Option.none⟩ "u1"
          ⟨some "u1", "s1", "p", "active", Option.none, 0, 0⟩]) ∧
    (pgUpsertSubscription "stripe_subscription_id"
        [checkoutRow ⟨Option.none, Option.none, Option.none, Option.none⟩ "u1"
          ⟨some "u1", "s1", "p", "active", Option.none, 0, 0⟩]
        (checkoutRow ⟨Option.none, Option.none, Option.none, Option.none⟩ "u1"
          ⟨some "u1", "s1", "p", "active", Option.none, 0, 0⟩)
      = some [checkoutRow ⟨Option.none, Option.none, Option.none, Option.none⟩ "u1"
          ⟨some "u1", "s1", "p", "active", Option.none, 0, 0⟩]) := by
  refine ⟨by decide, ?_, by decide, by decide, by decide⟩
  intro env table ev
  unfold handleCheckoutCompleted
  cases ev.userId with
  | none => rfl
  | some uid =>
    have h : pgUpsertSubscription "user_id" table (checkoutRow env uid ev)
        = Option.none := by
      unfold pgUpsertSubscription
      rw [if_pos (by decide)]
    show (match pgUpsertSubscription "user_id" table (checkoutRow env uid ev) with
          | Option.none => table
          | some table' => table') = table
    rw [h]

lemma processOne_fail (now : Int) (e : DispatchEntry)
    (h : e.profile = Option.none ∨ e.emailAccepted = false) :
    (processOne now e).1.lastReminderSent = e.deadline.lastReminderSent := by
  rcases h with h | h
  · cases hs : shouldSendReminder (getDaysUntilDeadline e.deadline.dueDay now)
        e.deadline.lastReminderSent now <;>
      simp [processOne, hs, h]
  · cases hs : shouldSendReminder (getDaysUntilDeadline e.deadline.dueDay now)
        e.deadline.lastReminderSent now <;>
      cases hp : e.profile <;>
      simp [processOne, hs, hp, h]

/-- C6: `last_reminder_sent` is updated only after a confirmed successful
send.  The dispatcher's loop output is exactly the per-entry processing
of its input, and any entry whose owner profile cannot be resolved or
whose email send fails keeps its `last_reminder_sent` unchanged. -/
theorem C6_no_optimistic_update (now : Int) (entries : List DispatchEntry) :
    (runDispatcher now entries).1 = entries.map (fun e => (processOne now e).1) ∧
    ∀ e : DispatchEntry, (e.profile = Option.none ∨ e.emailAccepted = false) →
      (processOne now e).1.lastReminderSent = e.deadline.lastReminderSent := by
  constructor
  · induction entries with
    | nil => rfl
    | cons e rest ih => simp [runDispatcher, ih]
  · exact fun e he => processOne_fail now e he

/-- C6 witness: a deadline one day out whose email send is rejected keeps
its unset `last_reminder_sent`. -/
theorem C6_no_optimistic_update_witness :
    (runDispatcher 2000
        [⟨⟨"d1", 3, Option.none, "u1"⟩, some ⟨"a@b.c", "A"⟩, false⟩]).1 =
      [(processOne 2000 ⟨⟨"d1", 3, Option.none, "u1"⟩, some ⟨"a@b.c", "A"⟩, false⟩).1] ∧
    (processOne 2000 ⟨⟨"d1", 3, Option.none, "u1"⟩, some ⟨"a@b.c", "A"⟩, false⟩).1.lastReminderSent
      = Option.none :=
  ⟨(C6_no_optimistic_update 2000 _).1,
   (C6_no_optimistic_update 2000
      [⟨⟨"d1", 3, Option.none, "u1"⟩, some ⟨"a@b.c", "A"⟩, false⟩]).2
      ⟨⟨"d1", 3, Option.none, "u1"⟩, some ⟨"a@b.c", "A"⟩, false⟩ (Or.inr rfl)⟩

/-- C7: the billing webhook rejects unauthenticated requests before
touching any state — a missing or unverifiable signature yields status
400 with no database operation performed. -/
theorem C7_reject_unverified (req : WebhookRequest)
    (h : req.hasSignature = false ∨ req.signatureValid = false) :
    stripeWebhookServe req = (400, []) := by
  unfold stripeWebhookServe
  rcases h with h | h <;> cases hs : req.hasSignature <;> simp_all

/-- C7 witness: a concrete unsigned request is rejected with no state
touched. -/
theorem C7_reject_unverified_witness :
    stripeWebhookServe ⟨false, false, .unhandled⟩ = (400, []) :=
  C7_reject_unverified ⟨false, false, .unhandled⟩ (Or.inl rfl)

/-- C10: a price id that is not a key of the `PRICE_TO_TIER` table
(including when all the price environment variables are unset) silently
resolves to plan tier `"pro"`, both as the raw lookup and as the
`plan_tier` recorded in the row the checkout handler writes. -/
theorem C10_unknown_price_is_pro (env : PriceEnv) (priceId : String)
    (h : priceId ∉ (priceToTierBindings env).map Prod.fst) :
    tierForPrice env priceId = "pro" ∧
    ∀ (uid : String) (ev : CheckoutEvent), ev.priceId = priceId →
      (checkoutRow env uid ev).planTier = "pro" := by
  have hlook : priceToTierLookup env priceId = Option.none := by
    unfold priceToTierLookup
    rw [List.find?_eq_none.mpr ?_]
    · rfl
    · intro b hb
      simp only [decide_eq_true_eq]
      intro heq
      exact h (List.mem_map.mpr ⟨b, List.mem_reverse.mp hb, heq⟩)
  have hmain : tierForPrice env priceId = "pro" := by
    unfold tierForPrice
    rw [hlook]
  refine ⟨hmain, fun uid ev hev => ?_⟩
  show tierForPrice env ev.priceId = "pro"
  rw [hev]
  exact hmain

/-- C10 witness: with all price environment variables unset, the unknown
price id "price_x" resolves to "pro". -/
theorem C10_unknown_price_is_pro_witness :
    ("price_x" ∉ (priceToTierBindings
        ⟨Option.none, Option.none, Option.none, Option.none⟩).map Prod.fst) ∧
    tierForPrice ⟨Option.none, Option.none, Option.none, Option.none⟩ "price_x"
      = "pro" :=
  ⟨by decide,
   (C10_unknown_price_is_pro ⟨Option.none, Option.none, Option.none, Option.none⟩
      "price_x" (by decide)).1⟩

/-- C9: urgency status is independent of the severity level — the
classifier's optional consequence-level argument never changes the
result. -/
theorem C9_severity_independent (dueDay now tz : Int)
    (l1 l2 : Option ConsequenceLevel) :
    getDeadlineStatus dueDay now tz l1 = getDeadlineStatus dueDay now tz l2 := rfl

end DeadlineGuard
